import Mathlib

/-
Verification of the game-codes storefront backend (backend/main.py) and the
MMORPG helper service (main.py): a shallow embedding of the document store,
the checkout/code-allocation flow, auth, and the OSRS stats proxy, with
theorems about the behaviours the two services exhibit.
-/

namespace GameCodesStore

/-- An error response: HTTPException(status_code, detail). -/
structure HErr where
  status : Nat
  detail : String
deriving Repr, DecidableEq

/-- A document in the "product" collection. -/
structure ProductDoc where
  id : String
  title : String
  price_cents : Nat
  currency : String
  active : Bool
deriving Repr, DecidableEq

/-- A document in the "codekey" collection. -/
structure CodeKeyDoc where
  id : String
  product_id : String
  code : String
  assigned : Bool
  order_id : Option String
deriving Repr, DecidableEq

/-- A cart line item: {product_id, quantity}. -/
structure CartItem where
  product_id : String
  quantity : Nat
deriving Repr, DecidableEq

/-- A document in the "order" collection. -/
structure OrderDoc where
  id : String
  email : String
  name : Option String
  items : List CartItem
  subtotal_cents : Nat
  total_cents : Nat
  currency : String
  status : String
  delivered_codes : List String
deriving Repr, DecidableEq

/-- A document in the "user" collection. -/
structure UserDoc where
  id : String
  email : String
  password_hash : String
  role : String
deriving Repr, DecidableEq

/-- The persisted state of the document store: one list per collection,
in store-iteration order. -/
structure Store where
  products : List ProductDoc
  codekeys : List CodeKeyDoc
  orders : List OrderDoc
  users : List UserDoc
deriving Repr, DecidableEq

/-- get_documents("product", filter by _id, limit=1), surfacing the first match. -/
def getProductById (s : Store) (pid : String) : Option ProductDoc :=
  s.products.find? (fun p => p.id == pid)

/-- get_documents("order", filter by _id, limit=1), surfacing the first match. -/
def getOrderById (s : Store) (oid : String) : Option OrderDoc :=
  s.orders.find? (fun o => o.id == oid)

/-- get_user_by_email: get_documents("user", filter by email, limit=1). -/
def get_user_by_email (s : Store) (email : String) : Option UserDoc :=
  s.users.find? (fun u => u.email == email)

/-- find_available_codes: get_documents("codekey",
filter product_id and assigned=False, limit=quantity). -/
def find_available_codes (s : Store) (product_id : String) (quantity : Nat) :
    List CodeKeyDoc :=
  (s.codekeys.filter (fun c => c.product_id == product_id && c.assigned == false)).take quantity

/-- create_document("order", doc): appends the document and returns the
generated id. -/
def create_document_order (s : Store) (o : OrderDoc) : Store × String :=
  let oid := "order-" ++ toString s.orders.length
  ({ s with orders := s.orders ++ [{ o with id := oid }] }, oid)

/-- create_document("product", doc): appends the document and returns the
generated id. -/
def create_document_product (s : Store) (p : ProductDoc) : Store × String :=
  let pid := "prod-" ++ toString s.products.length
  ({ s with products := s.products ++ [{ p with id := pid }] }, pid)

/-- Request body of POST /api/checkout/init. -/
structure OrderCreate where
  items : List CartItem
  email : String
  name : Option String
deriving Repr, DecidableEq

/-- Response of POST /api/checkout/init. -/
structure CheckoutInitResponse where
  client_secret : Option String
  order_id : String
  total_cents : Nat
deriving Repr, DecidableEq

/-- The subtotal/currency loop of checkout_init: for each item load the
product (400 on a missing one), accumulate price_cents * quantity, and keep
the last-looked-up product's currency. -/
def computeSubtotal (s : Store) : List CartItem → Nat → String → Except HErr (Nat × String)
  | [], subtotal, currency => .ok (subtotal, currency)
  | item :: rest, subtotal, _currency =>
    match getProductById s item.product_id with
    | none => .error ⟨400, "Invalid product " ++ item.product_id⟩
    | some p => computeSubtotal s rest (subtotal + p.price_cents * item.quantity) p.currency

/-- Outcome of the outbound Stripe payment-intent request: a response with
its ok flag and optional client_secret field, or a raised exception. -/
inductive StripeResult where
  | resp (ok : Bool) (client_secret : Option String)
  | exn
deriving Repr, DecidableEq

/-- True on the failure outcomes of the payment-intent request: a non-2xx
response or a raised exception. -/
def isPaymentFailure : StripeResult → Bool
  | .resp ok _ => !ok
  | .exn => true

/-- checkout_init: compute subtotal and currency from the catalog, persist a
pending order, then (when a Stripe key is configured) attempt the
payment-intent call, swallowing any failure into an absent client secret. -/
def checkout_init (s : Store) (stripe_api_key : String) (stripe : StripeResult)
    (payload : OrderCreate) : Store × Except HErr CheckoutInitResponse :=
  match computeSubtotal s payload.items 0 "usd" with
  | .error e => (s, .error e)
  | .ok (subtotal, currency) =>
    let total := subtotal
    let order : OrderDoc :=
      { id := "", email := payload.email, name := payload.name,
        items := payload.items, subtotal_cents := subtotal, total_cents := total,
        currency := currency, status := "pending", delivered_codes := [] }
    let res := create_document_order s order
    let client_secret :=
      if stripe_api_key = "" then none
      else
        match stripe with
        | .resp true cs => cs
        | .resp false _ => none
        | .exn => none
    (res.1, .ok ⟨client_secret, res.2, total⟩)

/-- Response of POST /api/checkout/confirm. -/
structure CheckoutConfirmResponse where
  order_id : String
  codes : List String
deriving Repr, DecidableEq

/-- The allocation loop of checkout_confirm: for each line item read the
available codes (reads only — nothing is ever marked assigned), raise 409 if
fewer than the quantity are found, else append the read codes. -/
def allocateCodes (s : Store) : List CartItem → Except HErr (List String)
  | [] => .ok []
  | item :: rest =>
    let qty := item.quantity
    let available := find_available_codes s item.product_id qty
    if available.length < qty then
      .error ⟨409, "Insufficient stock for a product"⟩
    else
      match allocateCodes s rest with
      | .error e => .error e
      | .ok more => .ok ((available.take qty).map (fun c => c.code) ++ more)

/-- checkout_confirm: load the order (404 if absent), run the allocation
loop over its items, and return the collected codes. The store is only read:
no codekey is marked assigned and the order document is not updated. -/
def checkout_confirm (s : Store) (order_id : String) :
    Store × Except HErr CheckoutConfirmResponse :=
  match getOrderById s order_id with
  | none => (s, .error ⟨404, "Order not found"⟩)
  | some order =>
    match allocateCodes s order.items with
    | .error e => (s, .error e)
    | .ok codes => (s, .ok ⟨order_id, codes⟩)

/-- JWT_SECRET environment default. -/
def JWT_SECRET : String := "devsecret"

/-- The claims carried by a token: sub (email), role, and exp (seconds). -/
structure TokenPayload where
  sub : Option String
  role : Option String
  exp : Nat
deriving Repr, DecidableEq

/-- A symbolic JWT: the payload together with the secret the HMAC signature
was produced with; verification succeeds exactly when the secrets agree. -/
structure Jwt where
  payload : TokenPayload
  signed_with : String
deriving Repr, DecidableEq

/-- jwt.encode(payload, secret, HS256). -/
def jwt_encode (p : TokenPayload) (secret : String) : Jwt :=
  ⟨p, secret⟩

/-- jwt.decode(token, secret, HS256): checks the signature and the exp claim
against the current time, yielding the payload or a JWTError (none). -/
def jwt_decode (t : Jwt) (secret : String) (now : Nat) : Option TokenPayload :=
  if t.signed_with = secret ∧ now < t.payload.exp then some t.payload else none

/-- create_access_token: encode sub and role with exp = now + 12 hours,
signed with JWT_SECRET. -/
def create_access_token (sub role : String) (now : Nat) : Jwt :=
  jwt_encode ⟨some sub, some role, now + 12 * 3600⟩ JWT_SECRET

/-- Response of the auth endpoints. -/
structure TokenResponse where
  access_token : Jwt
  token_type : String
deriving Repr, DecidableEq

/-- login: unknown email fails 400 "Invalid credentials"; a hash mismatch
(per the bcrypt verify oracle) fails with the same error; otherwise a token
is issued for the stored user's role. -/
def login (verify : String → String → Bool) (s : Store) (email password : String)
    (now : Nat) : Except HErr TokenResponse :=
  match get_user_by_email s email with
  | none => .error ⟨400, "Invalid credentials"⟩
  | some user =>
    if verify password user.password_hash then
      .ok ⟨create_access_token email user.role now, "bearer"⟩
    else
      .error ⟨400, "Invalid credentials"⟩

/-- The authenticated principal returned by get_current_user. -/
structure CurrentUser where
  email : String
  role : String
  id : String
deriving Repr, DecidableEq

/-- get_current_user: decode the token (401 on any decode error), take the
role from the token's role claim defaulting to "user", require a sub claim
and an existing user with that email, and return email/role/user id. -/
def get_current_user (s : Store) (token : Jwt) (now : Nat) : Except HErr CurrentUser :=
  match jwt_decode token JWT_SECRET now with
  | none => .error ⟨401, "Could not validate credentials"⟩
  | some payload =>
    let role := payload.role.getD "user"
    match payload.sub with
    | none => .error ⟨401, "Could not validate credentials"⟩
    | some email =>
      match get_user_by_email s email with
      | none => .error ⟨401, "Could not validate credentials"⟩
      | some user => .ok ⟨email, role, user.id⟩

/-- Request body of POST /api/admin/products. -/
structure ProductIn where
  title : String
  price_cents : Nat
  currency : String
  active : Bool
deriving Repr, DecidableEq

/-- create_product: 403 "Admin only" unless the authenticated principal's
role is admin; otherwise persist the product and return its id. -/
def create_product (s : Store) (current : CurrentUser) (product : ProductIn) :
    Store × Except HErr String :=
  if current.role ≠ "admin" then (s, .error ⟨403, "Admin only"⟩)
  else
    let res := create_document_product s
      ⟨"", product.title, product.price_cents, product.currency, product.active⟩
    (res.1, .ok res.2)

/-- A store with one product carrying a single unassigned code, and three
pending orders against that product: o1 and o2 each ask one unit, o3 asks
one unit on each of two line items. -/
def demoStore : Store := ⟨
  [⟨"p1", "Game Key", 1999, "usd", true⟩],
  [⟨"ck1", "p1", "CODE-A", false, none⟩],
  [⟨"o1", "a@example.com", none, [⟨"p1", 1⟩], 1999, 1999, "usd", "pending", []⟩,
   ⟨"o2", "b@example.com", none, [⟨"p1", 1⟩], 1999, 1999, "usd", "pending", []⟩,
   ⟨"o3", "c@example.com", none, [⟨"p1", 1⟩, ⟨"p1", 1⟩], 3998, 3998, "usd", "pending", []⟩],
  []⟩

/-- The specification's cart total: the sum over items of the product's
price_cents times the item quantity (0 for a missing product). -/
def cartTotal (s : Store) (items : List CartItem) : Nat :=
  (items.map (fun item =>
    ((getProductById s item.product_id).map
      (fun p => p.price_cents * item.quantity)).getD 0)).sum

/-- A cart asking two units of p1. -/
def demoPayload : OrderCreate := ⟨[⟨"p1", 2⟩], "a@example.com", none⟩

/-- A bcrypt-verify oracle for concrete runs: a stored hash matches exactly
the password with "#h" appended. -/
def demoVerify (password stored_hash : String) : Bool :=
  (password ++ "#h") == stored_hash

/-- A registered user with role "user". -/
def authUser : UserDoc := ⟨"u1", "a@example.com", "pw#h", "user"⟩

/-- The same user except for the stored role, which is "admin". -/
def authUserAdmin : UserDoc := ⟨"u1", "a@example.com", "pw#h", "admin"⟩

/-- A store holding only authUser. -/
def authStore : Store := ⟨[], [], [], [authUser]⟩

/-- A store holding only authUserAdmin: it differs from authStore solely in
the stored role field. -/
def authStoreAdmin : Store := ⟨[], [], [], [authUserAdmin]⟩

/-- Pointwise equality of two user collections on every field except role. -/
def usersDifferOnlyInRole : List UserDoc → List UserDoc → Bool
  | [], [] => true
  | u1 :: t1, u2 :: t2 =>
    u1.id == u2.id && u1.email == u2.email && u1.password_hash == u2.password_hash &&
      usersDifferOnlyInRole t1 t2
  | _, _ => false

/-- A token whose role claim is "admin", signed with JWT_SECRET and far from
expiry at time 0. -/
def demoToken : Jwt := ⟨⟨some "a@example.com", some "admin", 100⟩, JWT_SECRET⟩

/-- A pending order asking two units of p1. -/
def shortOrder : OrderDoc :=
  ⟨"os", "s@example.com", none, [⟨"p1", 2⟩], 3998, 3998, "usd", "pending", []⟩

/-- A store in which shortOrder asks two units of p1 but only one unassigned
code exists. -/
def shortStore : Store := ⟨
  [⟨"p1", "Game Key", 1999, "usd", true⟩],
  [⟨"ck1", "p1", "CODE-A", false, none⟩],
  [shortOrder], []⟩

end GameCodesStore

namespace MmorpgHelper

open GameCodesStore (HErr)

/-- A document in the "searchlog" collection; the query dict for OSRS
searches is {"username": username}. -/
structure SearchLog where
  game : String
  query_username : String
  result_ok : Bool
  note : Option String
deriving Repr, DecidableEq

/-- The persisted state of the helper service's document store. -/
structure LogStore where
  searchlogs : List SearchLog
deriving Repr, DecidableEq

/-- Parsed rank/level/xp of one skill. -/
structure SkillStat where
  rank : Int
  level : Int
  xp : Int
deriving Repr, DecidableEq

/-- The default stat substituted for a malformed skill line. -/
def defaultSkill : SkillStat := ⟨-1, 1, 0⟩

/-- The 24 skill names, in hiscore feed order. -/
def skillNames : List String :=
  ["Overall", "Attack", "Defence", "Strength", "Hitpoints", "Ranged", "Prayer",
   "Magic", "Cooking", "Woodcutting", "Fletching", "Fishing", "Firemaking",
   "Crafting", "Smithing", "Mining", "Herblore", "Agility", "Thieving",
   "Slayer", "Farming", "Runecraft", "Hunter", "Construction"]

/-- Python str.strip() over the characters: drop whitespace from both ends. -/
def pyStripChars (cs : List Char) : List Char :=
  ((cs.dropWhile Char.isWhitespace).reverse.dropWhile Char.isWhitespace).reverse

/-- Python str.strip() on a string. -/
def pyStrip (s : String) : String :=
  String.mk (pyStripChars s.toList)

/-- Python str.split(sep) for a one-character separator: the list of chunks
between separator occurrences (an empty input gives one empty chunk). -/
def splitOnChar (sep : Char) : List Char → List (List Char)
  | [] => [[]]
  | c :: rest =>
    let r := splitOnChar sep rest
    if c = sep then [] :: r
    else
      match r with
      | [] => [[c]]
      | h :: t => (c :: h) :: t

/-- Digits of a decimal numeral to its value; none when empty or any
character is not a digit. -/
def digitsToNat? (cs : List Char) : Option Nat :=
  if cs ≠ [] ∧ cs.all (fun c => c.isDigit) then
    some (cs.foldl (fun acc c => acc * 10 + (c.toNat - 48)) 0)
  else none

/-- Python int(str) on the strings the feed carries: surrounding whitespace,
an optional sign, then decimal digits. -/
def pyInt? (cs : List Char) : Option Int :=
  match pyStripChars cs with
  | '-' :: rest => (digitsToNat? rest).map (fun n => -(n : Int))
  | '+' :: rest => (digitsToNat? rest).map (fun n => (n : Int))
  | l => (digitsToNat? l).map (fun n => (n : Int))

/-- Parse one hiscore line: exactly three comma-separated fields, each an
integer; none when the unpack or any int() conversion fails. -/
def parseSkillLine (line : String) : Option SkillStat :=
  match splitOnChar ',' line.toList with
  | [r, l, x] =>
    match pyInt? r, pyInt? l, pyInt? x with
    | some rank, some level, some xp => some ⟨rank, level, xp⟩
    | _, _, _ => none
  | _ => none

/-- The per-skill try/except body: an out-of-range index or a parse failure
falls back to the default stat. -/
def parseSkillAt (lines : List String) (i : Nat) : SkillStat :=
  match lines.get? i with
  | none => defaultSkill
  | some line => (parseSkillLine line).getD defaultSkill

/-- The enumerate loop over the 24 skills, each parsed from its own line. -/
def parseSkills (lines : List String) : List (String × SkillStat) :=
  skillNames.enum.map (fun p => (p.2, parseSkillAt lines p.1))

/-- Outcome of the outbound hiscore HTTP request: a response with status and
text body, or a raised exception with its message. -/
inductive HttpResult where
  | resp (status : Nat) (body : String)
  | exn (msg : String)
deriving Repr, DecidableEq

/-- The message of the HTTPError that requests' raise_for_status raises for
a 4xx/5xx status. -/
def raiseForStatusMessage (status : Nat) : String :=
  toString status ++ " Error"

/-- Successful response body of POST /api/osrs/stats. -/
structure OsrsResponse where
  game : String
  username : String
  skills : List (String × SkillStat)
deriving Repr, DecidableEq

/-- get_osrs_stats: 400 on a blank username (no log); 404 re-raised with no
log entry; any other 4xx/5xx or exception logs a failed search and fails
500; otherwise the 24 skills are parsed line by line, a successful search
is logged, and the stats are returned. -/
def get_osrs_stats (s : LogStore) (raw_username : String) (http : HttpResult) :
    LogStore × Except HErr OsrsResponse :=
  let username := pyStrip raw_username
  if username = "" then (s, .error ⟨400, "Username required"⟩)
  else
    match http with
    | .resp status body =>
      if status = 404 then (s, .error ⟨404, "Player not found"⟩)
      else if 400 ≤ status then
        (⟨s.searchlogs ++ [⟨"osrs", username, false, some (String.mk ((raiseForStatusMessage status).toList.take 200))⟩]⟩,
         .error ⟨500, "Failed to fetch OSRS stats"⟩)
      else
        (⟨s.searchlogs ++ [⟨"osrs", username, true, none⟩]⟩,
         .ok ⟨"osrs", username, parseSkills ((splitOnChar '\x0a' (pyStripChars body.toList)).map String.mk)⟩)
    | .exn msg =>
      (⟨s.searchlogs ++ [⟨"osrs", username, false, some (String.mk (msg.toList.take 200))⟩]⟩,
       .error ⟨500, "Failed to fetch OSRS stats"⟩)

/-- Three feed lines of which the middle one is malformed. -/
def demoLines : List String := ["1,2,3", "x,y", "4,5,6"]

end MmorpgHelper

namespace GameCodesStore

/-- The allocation loop fails with the 409 insufficient-stock error as soon
as any line item has fewer unassigned codes than its quantity, since no
reads change the store between items. -/
lemma allocateCodes_error_of_insufficient (s : Store) (items : List CartItem)
    (h : ∃ item ∈ items,
      (find_available_codes s item.product_id item.quantity).length < item.quantity) :
    allocateCodes s items = .error ⟨409, "Insufficient stock for a product"⟩ := by
  induction items with
  | nil => simp at h
  | cons item rest ih =>
    by_cases hlt :
        (find_available_codes s item.product_id item.quantity).length < item.quantity
    · simp [allocateCodes, hlt]
    · have hrest : ∃ i ∈ rest,
          (find_available_codes s i.product_id i.quantity).length < i.quantity := by
        rcases h with ⟨i, hi, hins⟩
        rcases List.mem_cons.mp hi with rfl | hmem
        · exact absurd hins hlt
        · exact ⟨i, hmem, hins⟩
      simp [allocateCodes, hlt, ih hrest]

/-- C1: the claim that confirmCheckout never hands the same code to two
orders fails on the code: nothing is ever marked assigned, so with a single
unassigned code CODE-A in stock, confirming o1 and then o2 returns CODE-A to
both orders, and a single order with two line items for the same product
even receives CODE-A twice in one returned list. -/
theorem checkout_confirm_reissues_code_across_orders :
    (checkout_confirm demoStore "o1").2 = .ok ⟨"o1", ["CODE-A"]⟩ ∧
    (checkout_confirm (checkout_confirm demoStore "o1").1 "o2").2 = .ok ⟨"o2", ["CODE-A"]⟩ ∧
    (checkout_confirm demoStore "o3").2 = .ok ⟨"o3", ["CODE-A", "CODE-A"]⟩ ∧
    demoStore.codekeys.map (fun c => c.code) = ["CODE-A"] :=
  ⟨rfl, rfl, rfl, rfl⟩

/-- C2: the claim that a successful confirmCheckout marks the selected
CodeKeys assigned and transitions the Order to fulfilled fails on the code:
confirming o1 succeeds with CODE-A, yet the store is returned untouched —
every codekey still unassigned with no order_id, every order still pending
with no delivered_codes. -/
theorem checkout_confirm_success_updates_nothing :
    (checkout_confirm demoStore "o1").2 = .ok ⟨"o1", ["CODE-A"]⟩ ∧
    (checkout_confirm demoStore "o1").1 = demoStore ∧
    demoStore.codekeys.all (fun c => !c.assigned && c.order_id.isNone) = true ∧
    demoStore.orders.all (fun o => o.status == "pending" && o.delivered_codes.isEmpty) = true :=
  ⟨rfl, rfl, rfl, rfl⟩

/-- C3 counterexample: the confirmation does fail on insufficient stock with
status 409, but the detail string is "Insufficient stock for a product", not
the "Insufficient stock" the claim states. -/
theorem checkout_confirm_conflict_detail_differs :
    (checkout_confirm shortStore "os").2 = .error ⟨409, "Insufficient stock for a product"⟩ ∧
    "Insufficient stock for a product" ≠ "Insufficient stock" :=
  ⟨rfl, by decide⟩

/-- C3 (amended): if any line item of an existing order has fewer unassigned
codes available than its quantity, confirmCheckout fails the whole
confirmation with 409 "Insufficient stock for a product", the store is
untouched (so the order remains pending) and zero codes are allocated. -/
theorem checkout_confirm_insufficient_stock (s : Store) (oid : String) (o : OrderDoc)
    (ho : getOrderById s oid = some o)
    (h : ∃ item ∈ o.items,
      (find_available_codes s item.product_id item.quantity).length < item.quantity) :
    (checkout_confirm s oid).2 = .error ⟨409, "Insufficient stock for a product"⟩ ∧
    (checkout_confirm s oid).1 = s := by
  have halloc := allocateCodes_error_of_insufficient s o.items h
  simp [checkout_confirm, ho, halloc]

/-- C3 witness: shortStore's order asks two units with one code in stock. -/
theorem checkout_confirm_insufficient_stock_witness :
    (checkout_confirm shortStore "os").2 = .error ⟨409, "Insufficient stock for a product"⟩ ∧
    (checkout_confirm shortStore "os").1 = shortStore :=
  checkout_confirm_insufficient_stock shortStore "os" shortOrder (by decide) (by decide)

/-- C4: confirmCheckout only reads the document store: on every path —
success, order not found, or insufficient stock — the store it returns is
exactly the store it was given. -/
theorem checkout_confirm_readonly (s : Store) (oid : String) :
    (checkout_confirm s oid).1 = s := by
  unfold checkout_confirm
  split
  · rfl
  · split <;> rfl

end GameCodesStore

namespace GameCodesStore

/-- The subtotal/currency loop returns the accumulator plus the cart total
whenever every item's product exists, with some final currency. -/
lemma computeSubtotal_ok (s : Store) (items : List CartItem) (acc : Nat) (curr : String)
    (h : ∀ item ∈ items, (getProductById s item.product_id).isSome) :
    ∃ c, computeSubtotal s items acc curr = .ok (acc + cartTotal s items, c) := by
  induction items generalizing acc curr with
  | nil => exact ⟨curr, by simp [computeSubtotal, cartTotal]⟩
  | cons item rest ih =>
    obtain ⟨p, hp⟩ := Option.isSome_iff_exists.mp (h item (List.mem_cons_self item rest))
    obtain ⟨c, hc⟩ := ih (acc + p.price_cents * item.quantity) p.currency
      (fun i hi => h i (List.mem_cons_of_mem item hi))
    refine ⟨c, ?_⟩
    simp [computeSubtotal, hp, hc, cartTotal, Nat.add_assoc]

/-- C5: when every cart item's product exists, initCheckout appends exactly
one order whose subtotal is the sum of price_cents times quantity, whose
total equals the subtotal, and whose status is pending, and reports that
total in the response. -/
theorem checkout_init_totals (s : Store) (key : String) (st : StripeResult)
    (payload : OrderCreate)
    (h : ∀ item ∈ payload.items, (getProductById s item.product_id).isSome) :
    ∃ curr,
      (checkout_init s key st payload).1.orders = s.orders ++
        [⟨"order-" ++ toString s.orders.length, payload.email, payload.name,
          payload.items, cartTotal s payload.items, cartTotal s payload.items,
          curr, "pending", []⟩] ∧
      (checkout_init s key st payload).2.map (fun r => r.total_cents) =
        .ok (cartTotal s payload.items) := by
  obtain ⟨c, hc⟩ := computeSubtotal_ok s payload.items 0 "usd" h
  exact ⟨c, by simp [checkout_init, hc, create_document_order, Except.map],
    by simp [checkout_init, hc, Except.map]⟩

/-- C5 witness: a two-unit cart of the 1999-cent product totals 3998. -/
theorem checkout_init_totals_witness :
    (checkout_init demoStore "" .exn demoPayload).2.map (fun r => r.total_cents) =
      .ok (cartTotal demoStore demoPayload.items) := by
  obtain ⟨c, hord, htot⟩ := checkout_init_totals demoStore "" .exn demoPayload (by decide)
  exact htot

end GameCodesStore

namespace GameCodesStore

/-- C6: the persisted state produced by initCheckout does not depend on the
outcome of the payment-intent call (the order is created exactly the same
whatever the payment provider does), the error result, if any, is the same
for every payment outcome, and on any payment failure — non-2xx response or
exception — a successful response carries no client secret. -/
theorem checkout_init_payment_isolated (s : Store) (key : String) (r r0 : StripeResult)
    (payload : OrderCreate) (hfail : isPaymentFailure r = true) :
    (checkout_init s key r payload).1 = (checkout_init s key r0 payload).1 ∧
    (∀ e, (checkout_init s key r payload).2 = .error e ↔
      (checkout_init s key r0 payload).2 = .error e) ∧
    (∀ resp, (checkout_init s key r payload).2 = .ok resp → resp.client_secret = none) := by
  cases hcs : computeSubtotal s payload.items 0 "usd" with
  | error e => simp [checkout_init, hcs]
  | ok v =>
    obtain ⟨subtotal, currency⟩ := v
    refine ⟨?_, ?_, ?_⟩
    · simp [checkout_init, hcs]
    · intro e
      simp [checkout_init, hcs]
    · intro resp hresp
      cases r with
      | exn =>
        simp only [checkout_init, hcs] at hresp
        by_cases hk : key = "" <;> simp [hk] at hresp <;> simp [← hresp]
      | resp ok cs =>
        have hok : ok = false := by
          simpa [isPaymentFailure] using hfail
        subst hok
        simp only [checkout_init, hcs] at hresp
        by_cases hk : key = "" <;> simp [hk] at hresp <;> simp [← hresp]

/-- C6 witness: with a configured key, an exception-throwing payment call
yields the same persisted state as a successful one. -/
theorem checkout_init_payment_isolated_witness :
    isPaymentFailure .exn = true ∧
    (checkout_init demoStore "sk_test_123" .exn demoPayload).1 =
      (checkout_init demoStore "sk_test_123" (.resp true (some "cs_1")) demoPayload).1 :=
  ⟨by decide, (checkout_init_payment_isolated demoStore "sk_test_123" .exn
    (.resp true (some "cs_1")) demoPayload (by decide)).1⟩

end GameCodesStore

namespace GameCodesStore

/-- C7: login answers the identical error — status 400, detail "Invalid
credentials" — both for an unknown email and for a stored user whose hash
does not verify against the password, and on a match returns a bearer token
for the user signed with JWT_SECRET. -/
theorem login_invalid_credentials_uniform (verify : String → String → Bool) (s : Store)
    (email pw : String) (now : Nat) :
    (get_user_by_email s email = none →
      login verify s email pw now = .error ⟨400, "Invalid credentials"⟩) ∧
    (∀ u, get_user_by_email s email = some u → verify pw u.password_hash = false →
      login verify s email pw now = .error ⟨400, "Invalid credentials"⟩) ∧
    (∀ u, get_user_by_email s email = some u → verify pw u.password_hash = true →
      login verify s email pw now = .ok ⟨create_access_token email u.role now, "bearer"⟩ ∧
      (create_access_token email u.role now).signed_with = JWT_SECRET ∧
      (create_access_token email u.role now).payload.sub = some email) := by
  refine ⟨fun h => by simp [login, h],
    fun u hu hv => by simp [login, hu, hv],
    fun u hu hv => ⟨by simp [login, hu, hv], rfl, rfl⟩⟩

/-- C7 witness: a wrong password and an unknown email produce the same
error, and the right password yields the token. -/
theorem login_invalid_credentials_uniform_witness :
    login demoVerify authStore "missing@example.com" "pw" 0 =
      .error ⟨400, "Invalid credentials"⟩ ∧
    login demoVerify authStore "a@example.com" "wrong" 0 =
      .error ⟨400, "Invalid credentials"⟩ ∧
    login demoVerify authStore "a@example.com" "pw" 0 =
      .ok ⟨create_access_token "a@example.com" authUser.role 0, "bearer"⟩ := by
  have h1 := (login_invalid_credentials_uniform demoVerify authStore "missing@example.com"
    "pw" 0).1 (by decide)
  have h2 := (login_invalid_credentials_uniform demoVerify authStore "a@example.com"
    "wrong" 0).2.1 authUser (by decide) (by decide)
  have h3 := ((login_invalid_credentials_uniform demoVerify authStore "a@example.com"
    "pw" 0).2.2 authUser (by decide) (by decide)).1
  exact ⟨h1, h2, h3⟩

end GameCodesStore

namespace GameCodesStore

/-- jwt_decode yields the token's payload whenever it yields anything. -/
lemma jwt_decode_eq_some (t : Jwt) (secret : String) (now : Nat) (p : TokenPayload)
    (h : jwt_decode t secret now = some p) : p = t.payload := by
  unfold jwt_decode at h
  split at h
  · exact (Option.some.injEq _ _ ▸ h).symm
  · cases h

/-- Looking a user up by email in two collections equal up to roles either
fails in both or yields users agreeing on id, email and password hash. -/
lemma find_user_role_agnostic (l1 l2 : List UserDoc) (e : String)
    (h : usersDifferOnlyInRole l1 l2 = true) :
    (l1.find? (fun u => u.email == e) = none ∧ l2.find? (fun u => u.email == e) = none) ∨
    (∃ u1 u2, l1.find? (fun u => u.email == e) = some u1 ∧
      l2.find? (fun u => u.email == e) = some u2 ∧
      u1.id = u2.id ∧ u1.email = u2.email ∧ u1.password_hash = u2.password_hash) := by
  induction l1 generalizing l2 with
  | nil =>
    cases l2 with
    | nil => exact Or.inl ⟨rfl, rfl⟩
    | cons => simp [usersDifferOnlyInRole] at h
  | cons u1 t1 ih =>
    cases l2 with
    | nil => simp [usersDifferOnlyInRole] at h
    | cons u2 t2 =>
      simp only [usersDifferOnlyInRole, Bool.and_eq_true, beq_iff_eq] at h
      obtain ⟨⟨⟨hid, hem⟩, hph⟩, ht⟩ := h
      by_cases he : u1.email = e
      · refine Or.inr ⟨u1, u2, ?_, ?_, hid, hem, hph⟩
        · exact List.find?_cons_of_pos _ (by simpa using he)
        · exact List.find?_cons_of_pos _ (by simp [← hem, he])
      · have he2 : ¬ u2.email = e := fun hc => he (hem ▸ hc)
        rw [List.find?_cons_of_neg _ (by simpa using he),
          List.find?_cons_of_neg _ (by simpa using he2)]
        exact ih t2 ht

/-- C10: authentication takes the role from the token's role claim, with
default "user", and never from the stored user document: over two stores
whose user collections agree on everything but the role field, every token
authenticates to the identical result; on success the returned role is the
token claim's value; and the admin gate of create_product is decided by
that returned role alone. -/
theorem get_current_user_role_from_token (s1 s2 : Store) (token : Jwt) (now : Nat)
    (h : usersDifferOnlyInRole s1.users s2.users = true) :
    get_current_user s1 token now = get_current_user s2 token now ∧
    (∀ c, get_current_user s1 token now = .ok c →
      c.role = token.payload.role.getD "user") ∧
    (∀ c p, c.role ≠ "admin" → (create_product s1 c p).2 = .error ⟨403, "Admin only"⟩) ∧
    (∀ c p, c.role = "admin" →
      (create_product s1 c p).2 = .ok ("prod-" ++ toString s1.products.length)) := by
  refine ⟨?_, ?_, ?_, ?_⟩
  · cases hdec : jwt_decode token JWT_SECRET now with
    | none => simp [get_current_user, hdec]
    | some payload =>
      cases hsub : payload.sub with
      | none => simp [get_current_user, hdec, hsub]
      | some email =>
        rcases find_user_role_agnostic s1.users s2.users email h with
          ⟨hn1, hn2⟩ | ⟨u1, u2, hu1, hu2, hid, _, _⟩
        · simp [get_current_user, hdec, hsub, get_user_by_email, hn1, hn2]
        · simp [get_current_user, hdec, hsub, get_user_by_email, hu1, hu2, hid]
  · intro c hc
    unfold get_current_user at hc
    cases hdec : jwt_decode token JWT_SECRET now with
    | none => simp [hdec] at hc
    | some payload =>
      have hp := jwt_decode_eq_some token JWT_SECRET now payload hdec
      simp only [hdec] at hc
      cases hsub : payload.sub with
      | none => simp [hsub] at hc
      | some email =>
        simp only [hsub] at hc
        cases hu : get_user_by_email s1 email with
        | none => simp [hu] at hc
        | some u =>
          simp only [hu] at hc
          injection hc with hcc
          subst hp
          rw [← hcc]
  · intro c p hrole
    simp [create_product, hrole]
  · intro c p hrole
    simp [create_product, hrole, create_document_product]

/-- C10 witness: the same admin-claim token authenticates identically
against a store whose user has stored role "user" and one whose user has
stored role "admin". -/
theorem get_current_user_role_from_token_witness :
    usersDifferOnlyInRole authStore.users authStoreAdmin.users = true ∧
    get_current_user authStore demoToken 0 = get_current_user authStoreAdmin demoToken 0 :=
  ⟨by decide, (get_current_user_role_from_token authStore authStoreAdmin demoToken 0
    (by decide)).1⟩

end GameCodesStore

namespace MmorpgHelper

/-- C8 counterexample: on the player-not-found outcome — upstream status
404 — the stats lookup re-raises the 404 and records no search-log entry at
all, falsifying the claim that every outcome is logged. -/
theorem get_osrs_stats_404_records_no_log :
    (get_osrs_stats ⟨[]⟩ "alice" (.resp 404 "")).1.searchlogs = [] ∧
    (get_osrs_stats ⟨[]⟩ "alice" (.resp 404 "")).2 = .error ⟨404, "Player not found"⟩ :=
  ⟨rfl, rfl⟩

/-- C8 (amended): for a non-blank username, the stats lookup appends exactly
one search-log entry whose success flag matches the outcome on a successful
fetch and on an upstream failure (non-404 error status or exception), but on
the 404 player-not-found outcome the state is untouched and no entry is
recorded. -/
theorem get_osrs_stats_logging (s : LogStore) (u : String) (http : HttpResult)
    (hu : pyStrip u ≠ "") :
    (∀ status body, http = .resp status body → status < 400 →
      (get_osrs_stats s u http).1.searchlogs =
        s.searchlogs ++ [⟨"osrs", pyStrip u, true, none⟩] ∧
      (get_osrs_stats s u http).2 = .ok ⟨"osrs", pyStrip u,
        parseSkills ((splitOnChar '\x0a' (pyStripChars body.toList)).map String.mk)⟩) ∧
    (∀ status body, http = .resp status body → 400 ≤ status → status ≠ 404 →
      (get_osrs_stats s u http).1.searchlogs = s.searchlogs ++
        [⟨"osrs", pyStrip u, false,
          some (String.mk ((raiseForStatusMessage status).toList.take 200))⟩] ∧
      (get_osrs_stats s u http).2 = .error ⟨500, "Failed to fetch OSRS stats"⟩) ∧
    (∀ msg, http = .exn msg →
      (get_osrs_stats s u http).1.searchlogs = s.searchlogs ++
        [⟨"osrs", pyStrip u, false, some (String.mk (msg.toList.take 200))⟩] ∧
      (get_osrs_stats s u http).2 = .error ⟨500, "Failed to fetch OSRS stats"⟩) ∧
    (∀ body, http = .resp 404 body → (get_osrs_stats s u http).1 = s) := by
  refine ⟨?_, ?_, ?_, ?_⟩
  · rintro status body rfl hlt
    have h404 : status ≠ 404 := by omega
    have hge : ¬ 400 ≤ status := by omega
    exact ⟨by simp [get_osrs_stats, hu, h404, hge], by simp [get_osrs_stats, hu, h404, hge]⟩
  · rintro status body rfl hge h404
    exact ⟨by simp [get_osrs_stats, hu, h404, hge], by simp [get_osrs_stats, hu, h404, hge]⟩
  · rintro msg rfl
    exact ⟨by simp [get_osrs_stats, hu], by simp [get_osrs_stats, hu]⟩
  · rintro body rfl
    simp [get_osrs_stats, hu]

/-- C8 witness: an exception-raising fetch for "alice" appends the matching
failure entry. -/
theorem get_osrs_stats_logging_witness :
    pyStrip "alice" ≠ "" ∧
    (get_osrs_stats ⟨[]⟩ "alice" (.exn "boom")).1.searchlogs =
      [] ++ [⟨"osrs", pyStrip "alice", false, some (String.mk ("boom".toList.take 200))⟩] := by
  have h := get_osrs_stats_logging ⟨[]⟩ "alice" (.exn "boom") (by decide)
  exact ⟨by decide, (h.2.2.1 "boom" rfl).1⟩

/-- C9: the 24-skill parse is pointwise — it always yields one entry per
skill name; a malformed line yields the default stat at its own index; and
replacing the line at index i changes no entry at any other index, so a
single malformed line never aborts or perturbs the rest of the parse. -/
theorem parseSkills_malformed_line_localised (lines : List String) (i : Nat)
    (line repl : String) (hi : lines.get? i = some line)
    (hmal : parseSkillLine line = none) :
    (parseSkills lines).length = skillNames.length ∧
    (∀ hi24 : i < skillNames.length,
      (parseSkills lines).get? i = some (skillNames.get ⟨i, hi24⟩, defaultSkill)) ∧
    (∀ j, j ≠ i → (parseSkills (lines.set i repl)).get? j = (parseSkills lines).get? j) := by
  refine ⟨?_, ?_, ?_⟩
  · simp [parseSkills]
  · intro hi24
    have hi' : lines[i]? = some line := by simpa using hi
    simp [parseSkills, List.getElem?_map, List.getElem?_enum, parseSkillAt, hi', hmal,
      List.getElem?_eq_getElem hi24]
  · intro j hj
    have hset : (lines.set i repl)[j]? = lines[j]? :=
      List.getElem?_set_ne (Ne.symm hj)
    cases hn : skillNames[j]? with
    | none => simp [parseSkills, List.getElem?_map, List.getElem?_enum, hn]
    | some name =>
      simp [parseSkills, List.getElem?_map, List.getElem?_enum, hn, parseSkillAt, hset]

/-- C9 witness: in three lines with a malformed middle line, the Attack
entry defaults while neighbours parse. -/
theorem parseSkills_malformed_line_localised_witness :
    demoLines.get? 1 = some "x,y" ∧ parseSkillLine "x,y" = none ∧
    (parseSkills demoLines).get? 1 = some ("Attack", defaultSkill) := by
  have h := parseSkills_malformed_line_localised demoLines 1 "x,y" "9,9,9"
    (by decide) (by decide)
  exact ⟨by decide, by decide, h.2.1 (by decide)⟩

end MmorpgHelper
